import Mathlib

/- Verification model of the Postgres LISTEN/NOTIFY publish/subscribe layer of the
   briefer database package (src/unnamed/part_000, lines 74 to 219).

   JavaScript strings are modelled as lists of UTF-16 code units (List Nat), since
   charCodeAt, string length and JSON.stringify all operate on code units.
   Callback reference identity is modelled by a natural number tag.
   The module-level subscribers record (a JavaScript object mapping channel names
   to Sets of callbacks) is modelled as an association list whose inner lists keep
   JavaScript Set insertion order and hold no duplicates.
   Database round trips (LISTEN, UNLISTEN, advisory lock queries) are recorded as
   an issued-query trace; the success or failure of the external LISTEN and
   UNLISTEN round trips is a boolean parameter of the corresponding operation. -/

/-- A channel name: the UTF-16 code units of a JavaScript string. -/
abbrev Chan : Type := List Nat

/-- A callback, identified by reference identity. -/
abbrev Cb : Type := Nat

/-- The module-level subscribers record: channel name to Set of callbacks
    (Set insertion order kept as list order). -/
abbrev Registry : Type := List (Chan × List Cb)

/-- Lookup of subscribers[channel]: first entry with the given key. -/
def findChan : Registry → Chan → Option (List Cb)
  | [], _ => none
  | (k, v) :: rest, ch => if k = ch then some v else findChan rest ch

/-- Assignment subscribers[channel] = v: replace the entry if the key is
    present, append it otherwise (JavaScript objects hold each key once). -/
def setChan : Registry → Chan → List Cb → Registry
  | [], ch, v => [(ch, v)]
  | (k, w) :: rest, ch, v =>
      if k = ch then (ch, v) :: rest else (k, w) :: setChan rest ch v

/-- delete subscribers[channel]: drop the entry with the given key. -/
def removeChan : Registry → Chan → Registry
  | [], _ => []
  | (k, w) :: rest, ch => if k = ch then rest else (k, w) :: removeChan rest ch

/-- JavaScript Set.add: append the element unless already present
    (re-adding keeps the original insertion position). -/
def setAdd (l : List Cb) (cb : Cb) : List Cb :=
  if cb ∈ l then l else l ++ [cb]

/-- JavaScript Set.delete: remove the element if present. -/
def setDelete : List Cb → Cb → List Cb
  | [], _ => []
  | c :: cs, cb => if c = cb then setDelete cs cb else c :: setDelete cs cb

/-- Keys of the registry are pairwise distinct: inherent to the JavaScript
    object the registry models, and preserved by setChan and removeChan. -/
def keysNodup (r : Registry) : Prop := (r.map Prod.fst).Nodup

instance keysNodupDec : DecidablePred keysNodup := fun r =>
  inferInstanceAs (Decidable ((r.map Prod.fst).Nodup))

/-- Every subscriber list of the registry is duplicate-free: inherent to the
    JavaScript Sets the lists model, and preserved by setAdd and setDelete. -/
def valsNodup (r : Registry) : Prop := ∀ e ∈ r, e.2.Nodup

instance valsNodupDec : DecidablePred valsNodup := fun r =>
  inferInstanceAs (Decidable (∀ e ∈ r, e.2.Nodup))

/- The advisory lock key: hashChannel, part_000 lines 204 to 210.
   JavaScript computes hash = (hash * 31 + channel.charCodeAt(i)) | 0 over the
   code units and returns Math.abs(hash).  All intermediate products stay far
   below 2 to the 53, so float arithmetic is exact and only the | 0 truncation
   (ToInt32) matters. -/

/-- The JavaScript | 0 operation (ToInt32): reduce modulo 2 to the 32 into
    the signed range. -/
def toInt32 (n : Int) : Int :=
  let m := n % 4294967296
  if m < 2147483648 then m else m - 4294967296

/-- One loop iteration of hashChannel: hash = (hash * 31 + code) | 0. -/
def hashStep (h : Int) (c : Nat) : Int := toInt32 (h * 31 + (c : Int))

/-- hashChannel (part_000 lines 204 to 210): fold of hashStep from 0 over the
    code units, then Math.abs. -/
def hashChannel (ch : Chan) : Int := ((ch.foldl hashStep 0).natAbs : Int)

theorem toInt32_lb (n : Int) : -2147483648 ≤ toInt32 n := by
  have h0 : 0 ≤ n % 4294967296 := Int.emod_nonneg n (by norm_num)
  have h1 : n % 4294967296 < 4294967296 := Int.emod_lt_of_pos n (by norm_num)
  simp only [toInt32]
  split <;> omega

theorem toInt32_ub (n : Int) : toInt32 n < 2147483648 := by
  have h0 : 0 ≤ n % 4294967296 := Int.emod_nonneg n (by norm_num)
  have h1 : n % 4294967296 < 4294967296 := Int.emod_lt_of_pos n (by norm_num)
  simp only [toInt32]
  split <;> omega

theorem hash_foldl_bounds (l : List Nat) (h : Int)
    (hb : -2147483648 ≤ h ∧ h < 2147483648) :
    -2147483648 ≤ l.foldl hashStep h ∧ l.foldl hashStep h < 2147483648 := by
  induction l generalizing h with
  | nil => exact hb
  | cons c cs ih =>
      simp only [List.foldl_cons]
      exact ih (hashStep h c) ⟨toInt32_lb _, toInt32_ub _⟩

/-- A five code unit channel whose accumulated 32-bit hash is exactly minus
    2 to the 31, so Math.abs yields 2 to the 31. -/
def chanHashEdge : Chan := [2325, 9, 30, 12, 2]

/-- Claim C3, counterexample: there is a channel (code units 2325, 9, 30, 12, 2)
    whose lock token is 2147483648 = 2 to the 31, which is not representable as
    a 32-bit signed integer, refuting the claimed range
    from minus 2 to the 31 up to 2 to the 31 minus 1. -/
theorem hashChannel_exceeds_int32 :
    hashChannel chanHashEdge = 2147483648 ∧
    ¬(hashChannel chanHashEdge ≤ 2147483647) := by decide

/-- Claim C3, amended: hashChannel is deterministic (a pure function of the
    code units of the channel name) and its result lies in the closed interval
    from 0 to 2 to the 31.  Every value except the single attainable boundary
    value 2 to the 31 fits a 32-bit signed integer; all values fit the 64-bit
    advisory lock key parameter. -/
theorem hashChannel_deterministic_and_range (ch : Chan) :
    0 ≤ hashChannel ch ∧ hashChannel ch ≤ 2147483648 ∧
    (∀ ch2, ch2 = ch → hashChannel ch2 = hashChannel ch) := by
  have hb := hash_foldl_bounds ch 0 (by norm_num)
  refine ⟨Int.natCast_nonneg _, ?_, fun ch2 h2 => by rw [h2]⟩
  simp only [hashChannel]
  omega

/-- Claim C3, witness for the amended theorem at the concrete channel
    with code units of the word docs. -/
theorem hashChannel_range_witness :
    0 ≤ hashChannel [100, 111, 99, 115] ∧
    hashChannel [100, 111, 99, 115] ≤ 2147483648 ∧
    hashChannel [100, 111, 99, 115] = hashChannel [100, 111, 99, 115] :=
  ⟨(hashChannel_deterministic_and_range [100, 111, 99, 115]).1,
   (hashChannel_deterministic_and_range [100, 111, 99, 115]).2.1,
   (hashChannel_deterministic_and_range [100, 111, 99, 115]).2.2
     [100, 111, 99, 115] rfl⟩

/- Command texts.  subscribe issues the template literal
   LISTEN followed by JSON.stringify(channel) (part_000 line 167) and the
   unsubscribe closure issues UNLISTEN followed by JSON.stringify(channel)
   (line 193).  JSON.stringify on a string (well-formed mode of ES2019)
   wraps the code units in double quotes, escaping the double quote, the
   backslash, the named control characters, other code units below 0x20 as
   lowercase u-escapes, and unpaired surrogate code units as u-escapes. -/

/-- Code units of the text LISTEN followed by one space. -/
def listenWord : List Nat := [76, 73, 83, 84, 69, 78, 32]

/-- Code units of the text UNLISTEN followed by one space. -/
def unlistenWord : List Nat := [85, 78, 76, 73, 83, 84, 69, 78, 32]

/-- Lowercase hexadecimal digit as a code unit. -/
def hexDigit (n : Nat) : Nat := if n < 10 then 48 + n else 87 + n

/-- A JSON u-escape: backslash, letter u, four lowercase hex digits. -/
def uEscape (c : Nat) : List Nat :=
  [92, 117, hexDigit (c / 4096 % 16), hexDigit (c / 256 % 16),
   hexDigit (c / 16 % 16), hexDigit (c % 16)]

/-- JSON escape of one non-surrogate code unit. -/
def escapeUnit (c : Nat) : List Nat :=
  if c = 34 then [92, 34]
  else if c = 92 then [92, 92]
  else if c = 8 then [92, 98]
  else if c = 9 then [92, 116]
  else if c = 10 then [92, 110]
  else if c = 12 then [92, 102]
  else if c = 13 then [92, 114]
  else if c < 32 then uEscape c
  else [c]

/-- Leading surrogate code unit. -/
def isLead (c : Nat) : Bool := decide (55296 ≤ c) && decide (c ≤ 56319)

/-- Trailing surrogate code unit. -/
def isTrail (c : Nat) : Bool := decide (56320 ≤ c) && decide (c ≤ 57343)

/-- JSON escaping of a code unit sequence: paired surrogates pass through,
    unpaired surrogates become u-escapes, other units use escapeUnit. -/
def jsonEscape : List Nat → List Nat
  | [] => []
  | [c] => if isLead c || isTrail c then uEscape c else escapeUnit c
  | c :: c2 :: rest =>
      if isLead c then
        if isTrail c2 then c :: c2 :: jsonEscape rest
        else uEscape c ++ jsonEscape (c2 :: rest)
      else if isTrail c then uEscape c ++ jsonEscape (c2 :: rest)
      else escapeUnit c ++ jsonEscape (c2 :: rest)

/-- JSON.stringify of a JavaScript string: escaped units wrapped in double
    quotes. -/
def jsonStringify (s : List Nat) : List Nat := 34 :: jsonEscape s ++ [34]

/-- The text of the LISTEN command issued at part_000 line 167. -/
def listenCommand (ch : Chan) : List Nat := listenWord ++ jsonStringify ch

/-- The text of the UNLISTEN command issued at part_000 line 193. -/
def unlistenCommand (ch : Chan) : List Nat := unlistenWord ++ jsonStringify ch

/-- Modelled from the spec words for comparison: a safely quoted SQL
    identifier wraps the name in double quotes and doubles every internal
    double quote. -/
def sqlIdentQuote : List Nat → List Nat
  | [] => []
  | c :: cs => (if c = 34 then [34, 34] else [c]) ++ sqlIdentQuote cs

/-- Modelled from the spec words for comparison: the LISTEN command with the
    channel embedded as a safely quoted SQL identifier. -/
def specListenCommand (ch : Chan) : List Nat :=
  listenWord ++ 34 :: sqlIdentQuote ch ++ [34]

/-- Modelled from the spec words for comparison: the UNLISTEN command with the
    channel embedded as a safely quoted SQL identifier. -/
def specUnlistenCommand (ch : Chan) : List Nat :=
  unlistenWord ++ 34 :: sqlIdentQuote ch ++ [34]

/-- A code unit that JSON escaping and SQL identifier quoting both leave
    unchanged: printable, not the double quote, not the backslash, not a
    surrogate. -/
def plainUnit (c : Nat) : Prop :=
  32 ≤ c ∧ c ≠ 34 ∧ c ≠ 92 ∧ (c < 55296 ∨ 57343 < c)

instance plainUnitDec : DecidablePred plainUnit := fun c =>
  inferInstanceAs (Decidable (32 ≤ c ∧ c ≠ 34 ∧ c ≠ 92 ∧ (c < 55296 ∨ 57343 < c)))

theorem escapeUnit_plain {c : Nat} (h : plainUnit c) : escapeUnit c = [c] := by
  obtain ⟨h32, h34, h92, hs⟩ := h
  simp only [escapeUnit]
  split_ifs <;> first | rfl | omega

theorem isLead_plain {c : Nat} (h : plainUnit c) : isLead c = false := by
  obtain ⟨h32, h34, h92, hs⟩ := h
  simp only [isLead, Bool.and_eq_false_iff, decide_eq_false_iff_not]
  omega

theorem isTrail_plain {c : Nat} (h : plainUnit c) : isTrail c = false := by
  obtain ⟨h32, h34, h92, hs⟩ := h
  simp only [isTrail, Bool.and_eq_false_iff, decide_eq_false_iff_not]
  omega

theorem jsonEscape_plain :
    ∀ l : List Nat, (∀ c ∈ l, plainUnit c) → jsonEscape l = l
  | [], _ => rfl
  | [c], h => by
      have hc := h c (by simp)
      simp [jsonEscape, isLead_plain hc, isTrail_plain hc, escapeUnit_plain hc]
  | c :: c2 :: rest, h => by
      have hc := h c (by simp)
      have ih := jsonEscape_plain (c2 :: rest) (fun a ha => h a (by simp [ha]))
      simp [jsonEscape, isLead_plain hc, isTrail_plain hc, escapeUnit_plain hc, ih]

theorem sqlIdentQuote_plain :
    ∀ l : List Nat, (∀ c ∈ l, plainUnit c) → sqlIdentQuote l = l
  | [], _ => rfl
  | c :: cs, h => by
      have hc := h c (by simp)
      have ih := sqlIdentQuote_plain cs (fun a ha => h a (by simp [ha]))
      simp [sqlIdentQuote, hc.2.1, ih]

/-- Claim C2, counterexample: for the channel with code units of a, double
    quote, b, the issued LISTEN text differs from the LISTEN text with the
    channel as a safely quoted SQL identifier (JSON escapes the internal
    double quote with a backslash instead of doubling it), so the embedding
    is not equivalent to SQL identifier quoting. -/
theorem listenCommand_not_sql_quoted :
    listenCommand [97, 34, 98] ≠ specListenCommand [97, 34, 98] := by decide

/-- Claim C2, amended: the LISTEN and UNLISTEN command texts embed the channel
    via JSON string quoting.  For every channel whose code units are printable,
    not the double quote, not the backslash and not surrogates, this coincides
    with the safely quoted SQL identifier form (double quotes around the
    unchanged name); for channels containing a double quote the two forms
    differ, so not every string is safely embedded. -/
theorem listenCommand_sql_quoted_of_plain (ch : Chan)
    (h : ∀ c ∈ ch, plainUnit c) :
    listenCommand ch = listenWord ++ 34 :: ch ++ [34] ∧
    listenCommand ch = specListenCommand ch ∧
    unlistenCommand ch = specUnlistenCommand ch := by
  have hj := jsonEscape_plain ch h
  have hq := sqlIdentQuote_plain ch h
  refine ⟨?_, ?_, ?_⟩ <;>
    simp [listenCommand, unlistenCommand, jsonStringify, specListenCommand,
      specUnlistenCommand, hj, hq]

/-- Claim C2, witness for the amended theorem at the concrete channel with
    code units of the word docs. -/
theorem listenCommand_sql_quoted_witness :
    listenCommand [100, 111, 99, 115] =
      listenWord ++ 34 :: [100, 111, 99, 115] ++ [34] ∧
    listenCommand [100, 111, 99, 115] = specListenCommand [100, 111, 99, 115] ∧
    unlistenCommand [100, 111, 99, 115] =
      specUnlistenCommand [100, 111, 99, 115] :=
  listenCommand_sql_quoted_of_plain [100, 111, 99, 115] (by decide)

/- The subscribe / unsubscribe operations (part_000 lines 147 to 201).
   Each operation records the queries it sends on the dedicated pubSubClient
   connection, in order: the advisory lock acquire and release (parameterized
   SELECT pg_advisory_lock / pg_advisory_unlock with the hashChannel key) and
   any plain-text LISTEN or UNLISTEN command.  Whether the external LISTEN or
   UNLISTEN round trip succeeds is a boolean parameter; err records whether
   the operation rethrows that failure to its caller. -/

/-- A query sent on the dedicated connection. -/
inductive Query where
  | lockAcquire : Int → Query
  | lockRelease : Int → Query
  | textCmd : List Nat → Query
deriving DecidableEq

/-- The plain-text commands (LISTEN or UNLISTEN) among a query trace. -/
def textQueries (qs : List Query) : List (List Nat) :=
  qs.filterMap (fun q =>
    match q with
    | Query.textCmd c => some c
    | _ => none)

/-- Outcome of a subscribe or unsubscribe call: the registry afterwards, the
    queries issued on the dedicated connection, and whether the call threw. -/
structure OpResult where
  registry : Registry
  queries : List Query
  err : Bool
deriving DecidableEq

/-- subscribe (part_000 lines 147 to 176): acquire the advisory lock; if a
    subscriber set exists add the callback to it; otherwise install a new
    single-element set and issue LISTEN, and should LISTEN fail, delete the
    callback from the just-created set and rethrow; finally release the lock.
    listenOk models the outcome of the external LISTEN round trip. -/
def subscribe (listenOk : Bool) (r : Registry) (ch : Chan) (cb : Cb) :
    OpResult :=
  let k := hashChannel ch
  match findChan r ch with
  | some subs =>
      { registry := setChan r ch (setAdd subs cb)
        queries := [Query.lockAcquire k, Query.lockRelease k]
        err := false }
  | none =>
      let r1 := setChan r ch [cb]
      if listenOk then
        { registry := r1
          queries := [Query.lockAcquire k, Query.textCmd (listenCommand ch),
                      Query.lockRelease k]
          err := false }
      else
        { registry := setChan r1 ch (setDelete [cb] cb)
          queries := [Query.lockAcquire k, Query.textCmd (listenCommand ch),
                      Query.lockRelease k]
          err := true }

/-- The unsubscribe closure returned by subscribe (part_000 lines 178 to 200),
    determined only by the captured channel, the captured callback and the
    registry at invocation time: acquire the advisory lock; if the channel has
    no entry return; delete the callback from the set; if the set became empty
    issue UNLISTEN and, when it succeeds, delete the channel entry (an
    UNLISTEN failure skips the deletion and rethrows); finally release the
    lock.  unlistenOk models the outcome of the external UNLISTEN round
    trip. -/
def unsubscribe (unlistenOk : Bool) (r : Registry) (ch : Chan) (cb : Cb) :
    OpResult :=
  let k := hashChannel ch
  match findChan r ch with
  | none =>
      { registry := r
        queries := [Query.lockAcquire k, Query.lockRelease k]
        err := false }
  | some subs =>
      let subs1 := setDelete subs cb
      let r1 := setChan r ch subs1
      if subs1.length = 0 then
        if unlistenOk then
          { registry := removeChan r1 ch
            queries := [Query.lockAcquire k, Query.textCmd (unlistenCommand ch),
                        Query.lockRelease k]
            err := false }
        else
          { registry := r1
            queries := [Query.lockAcquire k, Query.textCmd (unlistenCommand ch),
                        Query.lockRelease k]
            err := true }
      else
        { registry := r1
          queries := [Query.lockAcquire k, Query.lockRelease k]
          err := false }

/-- Run the subscriber callbacks of one dispatch in Set insertion order,
    stopping at the first callback that throws (Set.forEach propagates the
    exception immediately).  raises tells which callbacks throw; the result
    is the list of performed invocations with their payload argument, and
    whether an exception propagated out of the handler. -/
def runCbs (raises : Cb → Bool) (p : Option (List Nat)) :
    List Cb → List (Cb × Option (List Nat)) × Bool
  | [] => ([], false)
  | c :: cs =>
      if raises c then ([(c, p)], true)
      else
        let rest := runCbs raises p cs
        ((c, p) :: rest.1, rest.2)

/-- The notification event handler armed at part_000 lines 131 to 140: look up
    the subscriber set of the channel of the notification; if absent return
    silently; otherwise invoke every subscriber with the payload. -/
def notifyDispatch (raises : Cb → Bool) (r : Registry) (ch : Chan)
    (p : Option (List Nat)) : List (Cb × Option (List Nat)) × Bool :=
  match findChan r ch with
  | none => ([], false)
  | some subs => runCbs raises p subs

/- Registry helper lemmas. -/

theorem findChan_setChan_self (r : Registry) (ch : Chan) (v : List Cb) :
    findChan (setChan r ch v) ch = some v := by
  induction r with
  | nil => simp [setChan, findChan]
  | cons e rest ih =>
      obtain ⟨k, w⟩ := e
      by_cases h : k = ch
      · simp [setChan, h, findChan]
      · simp [setChan, h, findChan, ih]

theorem setChan_findChan_self {r : Registry} {ch : Chan} {v : List Cb}
    (h : findChan r ch = some v) : setChan r ch v = r := by
  induction r with
  | nil => simp [findChan] at h
  | cons e rest ih =>
      obtain ⟨k, w⟩ := e
      by_cases hk : k = ch
      · simp only [findChan, if_pos hk, Option.some.injEq] at h
        simp [setChan, hk, h]
      · simp only [findChan, if_neg hk] at h
        simp [setChan, hk, ih h]

theorem findChan_none_of_notMem {r : Registry} {ch : Chan}
    (h : ch ∉ r.map Prod.fst) : findChan r ch = none := by
  induction r with
  | nil => rfl
  | cons e rest ih =>
      obtain ⟨k, w⟩ := e
      simp only [List.map_cons, List.mem_cons] at h
      push_neg at h
      have hk : ¬k = ch := fun hkk => h.1 hkk.symm
      simp [findChan, hk, ih h.2]

theorem findChan_removeChan_setChan {r : Registry} {ch : Chan} {w v : List Cb}
    (hk : keysNodup r) (hf : findChan r ch = some w) :
    findChan (removeChan (setChan r ch v) ch) ch = none := by
  induction r with
  | nil => simp [findChan] at hf
  | cons e rest ih =>
      obtain ⟨a, b⟩ := e
      simp only [keysNodup, List.map_cons, List.nodup_cons] at hk
      by_cases ha : a = ch
      · subst ha
        simp only [setChan, if_pos rfl, removeChan, if_pos rfl]
        exact findChan_none_of_notMem hk.1
      · simp only [findChan, if_neg ha] at hf
        simp only [setChan, if_neg ha, removeChan, if_neg ha, findChan]
        exact ih hk.2 hf

theorem findChan_some_mem {r : Registry} {ch : Chan} {v : List Cb}
    (h : findChan r ch = some v) : (ch, v) ∈ r := by
  induction r with
  | nil => simp [findChan] at h
  | cons e rest ih =>
      obtain ⟨k, w⟩ := e
      simp only [findChan] at h
      split at h
      · next hk =>
          rw [Option.some.injEq] at h
          subst hk
          subst h
          exact List.mem_cons_self _ _
      · next hk => exact List.mem_cons_of_mem _ (ih h)

theorem mem_setDelete_iff (l : List Cb) (cb c : Cb) :
    c ∈ setDelete l cb ↔ c ∈ l ∧ c ≠ cb := by
  induction l with
  | nil => simp [setDelete]
  | cons a as ih =>
      simp only [setDelete]
      split
      · next ha =>
          subst ha
          simp only [ih, List.mem_cons]
          tauto
      · next ha =>
          simp only [List.mem_cons, ih]
          constructor
          · rintro (rfl | ⟨h1, h2⟩)
            · exact ⟨Or.inl rfl, ha⟩
            · exact ⟨Or.inr h1, h2⟩
          · rintro ⟨rfl | h1, h2⟩
            · exact Or.inl rfl
            · exact Or.inr ⟨h1, h2⟩

theorem setDelete_of_notMem {l : List Cb} {cb : Cb} (h : cb ∉ l) :
    setDelete l cb = l := by
  induction l with
  | nil => rfl
  | cons a as ih =>
      simp only [List.mem_cons] at h
      push_neg at h
      have ha : ¬a = cb := fun hh => h.1 hh.symm
      simp [setDelete, ha, ih h.2]

theorem setDelete_singleton (cb : Cb) : setDelete [cb] cb = [] := by
  simp [setDelete]

theorem setDelete_ne_nil {l : List Cb} {cb c : Cb} (hc : c ∈ l) (hne : c ≠ cb) :
    setDelete l cb ≠ [] :=
  List.ne_nil_of_mem ((mem_setDelete_iff l cb c).mpr ⟨hc, hne⟩)

theorem mem_setAdd_self (l : List Cb) (cb : Cb) : cb ∈ setAdd l cb := by
  by_cases h : cb ∈ l <;> simp [setAdd, h]

theorem setAdd_of_mem {l : List Cb} {cb : Cb} (h : cb ∈ l) : setAdd l cb = l :=
  if_pos h

theorem nodup_setAdd {l : List Cb} (cb : Cb) (h : l.Nodup) :
    (setAdd l cb).Nodup := by
  by_cases hm : cb ∈ l
  · simpa [setAdd, hm] using h
  · simp only [setAdd, if_neg hm]
    exact h.append (List.nodup_singleton cb) (by simpa using hm)

/-- Code units of the channel name docs used by concrete witnesses. -/
def chanDocs : Chan := [100, 111, 99, 115]

/-- Claim C1: evaluation of the code at the failing input.  When the first
    subscribe on channel docs hits a LISTEN failure, the failure is rethrown
    (err = true) but the registry keeps an entry mapping the channel to an
    empty set instead of removing it; a later subscribe on the channel then
    finds that truthy empty set, adds its callback to it and issues no LISTEN
    at all, so the channel is left permanently without a server-side LISTEN. -/
theorem subscribe_listen_failure_leaves_empty_entry :
    (subscribe false [] chanDocs 1).err = true ∧
    findChan (subscribe false [] chanDocs 1).registry chanDocs = some [] ∧
    textQueries
      (subscribe true (subscribe false [] chanDocs 1).registry chanDocs
        2).queries = [] ∧
    findChan
      (subscribe true (subscribe false [] chanDocs 1).registry chanDocs
        2).registry chanDocs = some [2] := by decide

/-- Claim C4: a subscribe on a channel with no existing subscriber set (and a
    successful LISTEN round trip) installs the set holding only that callback
    and issues exactly one plain-text command, the LISTEN command; a subscribe
    on a channel with an existing subscriber set adds the callback to that set
    and issues no LISTEN command whatever the round trip outcome would be. -/
theorem subscribe_first_vs_existing (r : Registry) (ch : Chan) (cb : Cb) :
    (findChan r ch = none →
        findChan (subscribe true r ch cb).registry ch = some [cb] ∧
        textQueries (subscribe true r ch cb).queries = [listenCommand ch] ∧
        (subscribe true r ch cb).err = false) ∧
    (∀ subs ok, findChan r ch = some subs →
        findChan (subscribe ok r ch cb).registry ch = some (setAdd subs cb) ∧
        textQueries (subscribe ok r ch cb).queries = [] ∧
        (subscribe ok r ch cb).err = false) := by
  constructor
  · intro h
    simp [subscribe, h, findChan_setChan_self, textQueries]
  · intro subs ok h
    simp [subscribe, h, findChan_setChan_self, textQueries]

/-- Claim C4, witness at the concrete channel docs: first subscribe on the
    empty registry, then a subscribe with one existing subscriber. -/
theorem subscribe_first_vs_existing_witness :
    findChan (subscribe true [] chanDocs 1).registry chanDocs = some [1] ∧
    textQueries (subscribe true [] chanDocs 1).queries =
      [listenCommand chanDocs] ∧
    textQueries (subscribe true [(chanDocs, [1])] chanDocs 2).queries = [] ∧
    findChan (subscribe true [(chanDocs, [1])] chanDocs 2).registry chanDocs =
      some (setAdd [1] 2) :=
  ⟨((subscribe_first_vs_existing [] chanDocs 1).1 (by decide)).1,
   ((subscribe_first_vs_existing [] chanDocs 1).1 (by decide)).2.1,
   ((subscribe_first_vs_existing [(chanDocs, [1])] chanDocs 2).2 [1] true
      (by decide)).2.1,
   ((subscribe_first_vs_existing [(chanDocs, [1])] chanDocs 2).2 [1] true
      (by decide)).1⟩

/-- Claim C5: invoking the unsubscribe closure when the captured callback is
    the only subscriber of the channel issues exactly one plain-text command,
    the UNLISTEN command, and deletes the registry entry of the channel, so a
    subsequent notification on that channel dispatches to zero callbacks;
    when another subscriber remains, no UNLISTEN is issued and the entry is
    kept with the callback removed. -/
theorem unsubscribe_last_vs_remaining (r : Registry) (ch : Chan) (cb : Cb)
    (p : Option (List Nat)) (raises : Cb → Bool) (hk : keysNodup r) :
    (findChan r ch = some [cb] →
        textQueries (unsubscribe true r ch cb).queries =
          [unlistenCommand ch] ∧
        findChan (unsubscribe true r ch cb).registry ch = none ∧
        notifyDispatch raises (unsubscribe true r ch cb).registry ch p =
          ([], false) ∧
        (unsubscribe true r ch cb).err = false) ∧
    (∀ subs c2, findChan r ch = some subs → c2 ∈ subs → c2 ≠ cb →
        textQueries (unsubscribe true r ch cb).queries = [] ∧
        findChan (unsubscribe true r ch cb).registry ch =
          some (setDelete subs cb) ∧
        (unsubscribe true r ch cb).err = false) := by
  constructor
  · intro h
    have hs : setDelete [cb] cb = [] := setDelete_singleton cb
    have hnone := findChan_removeChan_setChan (v := setDelete [cb] cb) hk h
    simp [unsubscribe, h, hs, textQueries, notifyDispatch, hnone,
      hs ▸ hnone]
  · intro subs c2 h hc2 hne
    have hne2 : setDelete subs cb ≠ [] := setDelete_ne_nil hc2 hne
    have hlen : ¬(setDelete subs cb).length = 0 := by
      simpa [List.length_eq_zero] using hne2
    simp [unsubscribe, h, hlen, textQueries, findChan_setChan_self]

/-- Claim C5, witness at the concrete channel docs: last subscriber leaving,
    then one of two subscribers leaving. -/
theorem unsubscribe_last_vs_remaining_witness :
    textQueries (unsubscribe true [(chanDocs, [1])] chanDocs 1).queries =
      [unlistenCommand chanDocs] ∧
    findChan (unsubscribe true [(chanDocs, [1])] chanDocs 1).registry
      chanDocs = none ∧
    notifyDispatch (fun _ => false)
      (unsubscribe true [(chanDocs, [1])] chanDocs 1).registry chanDocs none =
      ([], false) ∧
    textQueries (unsubscribe true [(chanDocs, [1, 2])] chanDocs 1).queries =
      [] ∧
    findChan (unsubscribe true [(chanDocs, [1, 2])] chanDocs 1).registry
      chanDocs = some (setDelete [1, 2] 1) :=
  ⟨((unsubscribe_last_vs_remaining [(chanDocs, [1])] chanDocs 1 none
      (fun _ => false) (by decide)).1 (by decide)).1,
   ((unsubscribe_last_vs_remaining [(chanDocs, [1])] chanDocs 1 none
      (fun _ => false) (by decide)).1 (by decide)).2.1,
   ((unsubscribe_last_vs_remaining [(chanDocs, [1])] chanDocs 1 none
      (fun _ => false) (by decide)).1 (by decide)).2.2.1,
   ((unsubscribe_last_vs_remaining [(chanDocs, [1, 2])] chanDocs 1 none
      (fun _ => false) (by decide)).2 [1, 2] 2 (by decide) (by decide)
      (by decide)).1,
   ((unsubscribe_last_vs_remaining [(chanDocs, [1, 2])] chanDocs 1 none
      (fun _ => false) (by decide)).2 [1, 2] 2 (by decide) (by decide)
      (by decide)).2.1⟩

/-- Claim C9, counterexample: after a first subscribe whose LISTEN round trip
    failed, the registry holds the reachable entry mapping channel docs to the
    empty set.  Invoking an unsubscribe closure for a callback that was never
    registered (callback 7) on this state is not a no-op: it issues an
    UNLISTEN command and mutates the registry (the entry is deleted). -/
theorem unsubscribe_absent_issues_unlisten :
    findChan (subscribe false [] chanDocs 1).registry chanDocs = some [] ∧
    textQueries
      (unsubscribe true (subscribe false [] chanDocs 1).registry chanDocs
        7).queries = [unlistenCommand chanDocs] ∧
    (unsubscribe true (subscribe false [] chanDocs 1).registry chanDocs
        7).registry ≠ (subscribe false [] chanDocs 1).registry := by decide

/-- Claim C9, amended: invoking an unsubscribe closure is a silent no-op (no
    throw, no UNLISTEN, registry unchanged) when the channel has no registry
    entry, and likewise when the entry holds a nonempty subscriber set that
    does not contain the callback.  The remaining case, an entry holding an
    empty set, is reachable only through a failed LISTEN rollback, and there
    the closure issues UNLISTEN and deletes the entry. -/
theorem unsubscribe_noop_when_absent (r : Registry) (ch : Chan) (cb : Cb) :
    (findChan r ch = none →
        (unsubscribe true r ch cb).registry = r ∧
        textQueries (unsubscribe true r ch cb).queries = [] ∧
        (unsubscribe true r ch cb).err = false) ∧
    (∀ subs, findChan r ch = some subs → subs ≠ [] → cb ∉ subs →
        (unsubscribe true r ch cb).registry = r ∧
        textQueries (unsubscribe true r ch cb).queries = [] ∧
        (unsubscribe true r ch cb).err = false) := by
  constructor
  · intro h
    simp [unsubscribe, h, textQueries]
  · intro subs h hne hnm
    have hsd : setDelete subs cb = subs := setDelete_of_notMem hnm
    have hlen : ¬(setDelete subs cb).length = 0 := by
      simp [hsd, List.length_eq_zero, hne]
    simp [unsubscribe, h, hlen, hsd, textQueries, setChan_findChan_self h, hne]

/-- Claim C9, witness for the amended theorem: a channel with no entry, and a
    channel whose set holds callback 1 while callback 5 unsubscribes. -/
theorem unsubscribe_noop_witness :
    (unsubscribe true [] chanDocs 5).registry = [] ∧
    textQueries (unsubscribe true [] chanDocs 5).queries = [] ∧
    (unsubscribe true [(chanDocs, [1])] chanDocs 5).registry =
      [(chanDocs, [1])] ∧
    textQueries (unsubscribe true [(chanDocs, [1])] chanDocs 5).queries = [] :=
  ⟨((unsubscribe_noop_when_absent [] chanDocs 5).1 (by decide)).1,
   ((unsubscribe_noop_when_absent [] chanDocs 5).1 (by decide)).2.1,
   ((unsubscribe_noop_when_absent [(chanDocs, [1])] chanDocs 5).2 [1]
      (by decide) (by decide) (by decide)).1,
   ((unsubscribe_noop_when_absent [(chanDocs, [1])] chanDocs 5).2 [1]
      (by decide) (by decide) (by decide)).2.1⟩

/-- The callback is absent from an optional subscriber set. -/
def optNotMem (cb : Cb) : Option (List Cb) → Prop
  | none => True
  | some v => cb ∉ v

/-- Claim C10: the unsubscribe closure is determined only by the captured
    channel and callback identity (it is literally a function of those two and
    of the registry at invocation time), and invoking it removes the callback
    from the current subscriber set of the channel whenever it is present —
    so a stale closure removes a later re-registration of the same callback
    made through a newer subscribe call.  After any invocation the callback is
    absent from the channel entry, whatever the UNLISTEN outcome. -/
theorem unsubscribe_removes_current_registration (uok : Bool) (r : Registry)
    (ch : Chan) (cb : Cb) (hk : keysNodup r) :
    optNotMem cb (findChan (unsubscribe uok r ch cb).registry ch) := by
  cases hf : findChan r ch with
  | none => simp [unsubscribe, hf, optNotMem]
  | some subs =>
      by_cases hlen : (setDelete subs cb).length = 0
      · cases uok with
        | false =>
            simp [unsubscribe, hf, hlen, findChan_setChan_self, optNotMem,
              mem_setDelete_iff]
        | true =>
            simp [unsubscribe, hf, hlen,
              findChan_removeChan_setChan hk hf, optNotMem]
      · simp [unsubscribe, hf, hlen, findChan_setChan_self, optNotMem,
          mem_setDelete_iff]

/-- The registry reached by subscribing callback 1, invoking its unsubscribe
    closure, then re-subscribing the same callback through a newer subscribe
    call: the state in which a stale first closure can still be invoked. -/
def reregState : Registry :=
  (subscribe true
    ((unsubscribe true (subscribe true [] chanDocs 1).registry chanDocs
        1).registry)
    chanDocs 1).registry

/-- Claim C10, witness: removing one of two subscribers, and invoking the
    stale closure on the re-registration state. -/
theorem unsubscribe_removes_witness :
    optNotMem 1
      (findChan (unsubscribe true [(chanDocs, [1, 2])] chanDocs 1).registry
        chanDocs) ∧
    optNotMem 1
      (findChan (unsubscribe true reregState chanDocs 1).registry chanDocs) :=
  ⟨unsubscribe_removes_current_registration true [(chanDocs, [1, 2])] chanDocs
      1 (by decide),
   unsubscribe_removes_current_registration true reregState chanDocs 1
      (by decide)⟩

theorem runCbs_no_raise (raises : Cb → Bool) (p : Option (List Nat)) :
    ∀ l : List Cb, (∀ c ∈ l, raises c = false) →
      runCbs raises p l = (l.map (fun c => (c, p)), false)
  | [], _ => rfl
  | c :: cs, h => by
      have hc := h c (by simp)
      have ih := runCbs_no_raise raises p cs (fun a ha => h a (by simp [ha]))
      simp [runCbs, hc, ih]

theorem runCbs_raise (raises : Cb → Bool) (p : Option (List Nat)) (c : Cb)
    (hc : raises c = true) :
    ∀ pre2 : List Cb, (∀ a ∈ pre2, raises a = false) → ∀ post,
      runCbs raises p (pre2 ++ c :: post) =
        ((pre2 ++ [c]).map (fun x => (x, p)), true)
  | [], _, post => by simp [runCbs, hc]
  | a :: rest, h, post => by
      have ha := h a (by simp)
      have ih := runCbs_raise raises p c hc rest
        (fun x hx => h x (by simp [hx])) post
      simp [runCbs, ha, ih]

/-- Claim C6: the notification handler drops an event for a channel with no
    subscriber set silently; with a set present and no callback throwing it
    invokes every registered callback with the payload in registration order
    and no exception propagates; and when a callback throws, the callbacks
    before it have been invoked in order, the later ones are not invoked, and
    the exception propagates out of the handler (the dispatcher performs no
    isolation). -/
theorem dispatch_behavior (raises : Cb → Bool) (r : Registry) (ch : Chan)
    (p : Option (List Nat)) :
    (findChan r ch = none → notifyDispatch raises r ch p = ([], false)) ∧
    (∀ subs, findChan r ch = some subs → (∀ c ∈ subs, raises c = false) →
        notifyDispatch raises r ch p = (subs.map (fun c => (c, p)), false)) ∧
    (∀ pre2 c post, findChan r ch = some (pre2 ++ c :: post) →
        (∀ a ∈ pre2, raises a = false) → raises c = true →
        notifyDispatch raises r ch p =
          ((pre2 ++ [c]).map (fun x => (x, p)), true)) := by
  refine ⟨fun h => by simp [notifyDispatch, h],
    fun subs h hall => ?_, fun pre2 c post h hpre hc => ?_⟩
  · simp [notifyDispatch, h, runCbs_no_raise raises p subs hall]
  · simp [notifyDispatch, h, runCbs_raise raises p c hc pre2 hpre post]

/-- Callback behavior for the dispatch witness: callback 2 throws. -/
def raisesTwo : Cb → Bool := fun c => decide (c = 2)

/-- Claim C6, witness: an unknown channel, a two-callback dispatch with no
    failure, and a three-callback dispatch where the middle one throws. -/
theorem dispatch_behavior_witness :
    notifyDispatch raisesTwo [] chanDocs none = ([], false) ∧
    notifyDispatch raisesTwo [(chanDocs, [1, 3])] chanDocs (some [104]) =
      ([(1, some [104]), (3, some [104])], false) ∧
    notifyDispatch raisesTwo [(chanDocs, [1, 2, 3])] chanDocs (some [104]) =
      ([(1, some [104]), (2, some [104])], true) :=
  ⟨(dispatch_behavior raisesTwo [] chanDocs none).1 (by decide),
   (dispatch_behavior raisesTwo [(chanDocs, [1, 3])] chanDocs
      (some [104])).2.1 [1, 3] (by decide) (by decide),
   (dispatch_behavior raisesTwo [(chanDocs, [1, 2, 3])] chanDocs
      (some [104])).2.2 [1] 2 [3] (by decide) (by decide) (by decide)⟩

/-- Claim C7: subscribing the same callback (same reference identity) twice
    on the same channel gives identity-deduplicated membership, so one
    dispatched notification invokes that callback exactly once. -/
theorem duplicate_subscribe_single_delivery (r : Registry) (ch : Chan)
    (cb : Cb) (p : Option (List Nat)) (hv : valsNodup r) :
    (((notifyDispatch (fun _ => false)
          ((subscribe true (subscribe true r ch cb).registry ch cb).registry)
          ch p).1.map Prod.fst).count cb) = 1 := by
  obtain ⟨X, hX1, hmem, hnd⟩ :
      ∃ X, findChan (subscribe true r ch cb).registry ch = some X ∧
        cb ∈ X ∧ X.Nodup := by
    cases hf : findChan r ch with
    | none =>
        refine ⟨[cb], ?_, by simp, List.nodup_singleton cb⟩
        simp [subscribe, hf, findChan_setChan_self]
    | some subs =>
        have hsubs : subs.Nodup := hv (ch, subs) (findChan_some_mem hf)
        refine ⟨setAdd subs cb, ?_, mem_setAdd_self subs cb,
          nodup_setAdd cb hsubs⟩
        simp [subscribe, hf, findChan_setChan_self]
  have h2 : findChan
      (subscribe true (subscribe true r ch cb).registry ch cb).registry ch =
      some X := by
    set r1 := (subscribe true r ch cb).registry with hr1
    simp [subscribe, hX1, findChan_setChan_self, setAdd_of_mem hmem]
  simp only [notifyDispatch, h2,
    runCbs_no_raise (fun _ => false) p X (fun _ _ => rfl), List.map_map]
  have hfst : (Prod.fst ∘ fun c : Cb => (c, p)) = id := rfl
  rw [hfst, List.map_id]
  exact List.count_eq_one_of_mem hnd hmem

/-- Claim C7, witness: the same callback subscribed twice on the empty
    registry is invoked exactly once per dispatch. -/
theorem duplicate_subscribe_witness :
    (((notifyDispatch (fun _ => false)
          ((subscribe true (subscribe true [] chanDocs 1).registry chanDocs
              1).registry)
          chanDocs none).1.map Prod.fst).count 1) = 1 :=
  duplicate_subscribe_single_delivery [] chanDocs 1 none (by decide)

/- Connection construction (getPGInstance, part_000 lines 76 to 145).
   The transport security option passed to the pool and the dedicated client
   is derived from the init option (lines 90 to 98): prefer leaves it unset
   (the library and connection string choose, attempting the preferred
   transport first), an explicit configuration object is passed through, and
   false disables it.  The dedicated client connects eagerly; if that connect
   throws exactly the message that the server does not support SSL
   connections while the init option was prefer, both the pool and the
   dedicated client are rebuilt with transport security disabled and the
   connect is retried; any other failure is rethrown (lines 109 to 129).
   The external behavior of connecting under a given transport option is a
   parameter: none means the connect succeeds, some msg means it throws
   with that message. -/

/-- The ssl field of InitOptions: the literal prefer, an explicit
    configuration, or false. -/
inductive SslInit where
  | prefer
  | conf (rejectUnauthorized : Option Bool) (ca : Option (List Nat))
  | off
deriving DecidableEq

/-- The ssl option handed to the pg Pool and Client constructors. -/
inductive SslOpt where
  | undef
  | conf (rejectUnauthorized : Option Bool) (ca : Option (List Nat))
  | off
deriving DecidableEq

/-- The ssl value computed at part_000 lines 90 to 98. -/
def sslFromInit : SslInit → SslOpt
  | SslInit.prefer => SslOpt.undef
  | SslInit.conf rej ca => SslOpt.conf rej ca
  | SslInit.off => SslOpt.off

/-- Code units of the message: The server does not support SSL connections. -/
def noSSLMsg : List Nat :=
  [84, 104, 101, 32, 115, 101, 114, 118, 101, 114, 32, 100, 111, 101, 115,
   32, 110, 111, 116, 32, 115, 117, 112, 112, 111, 114, 116, 32, 83, 83, 76,
   32, 99, 111, 110, 110, 101, 99, 116, 105, 111, 110, 115]

/-- The memoized pgInstance: the transport options the pool and the dedicated
    client ended up constructed with. -/
structure PGSetup where
  poolSsl : SslOpt
  clientSsl : SslOpt
deriving DecidableEq

/-- The connection construction of getPGInstance (part_000 lines 88 to 144):
    build pool and dedicated client with the derived ssl option and connect
    the client; on the specific no-SSL-support failure under the prefer mode,
    rebuild both without transport security and reconnect, propagating any
    failure of the retry; on any other failure rethrow it. -/
def getPGConnect (server : SslOpt → Option (List Nat)) (mode : SslInit) :
    Except (List Nat) PGSetup :=
  let ssl := sslFromInit mode
  match server ssl with
  | none => Except.ok { poolSsl := ssl, clientSsl := ssl }
  | some msg =>
      if mode = SslInit.prefer ∧ msg = noSSLMsg then
        match server SslOpt.off with
        | none => Except.ok { poolSsl := SslOpt.off, clientSsl := SslOpt.off }
        | some msg2 => Except.error msg2
      else Except.error msg

/-- Claim C8: under the prefer mode the first connect uses the unset
    transport option (library preference, secure first when available); if
    the server reports exactly that it does not support SSL connections and
    a retry without transport security succeeds, the call returns normally
    with both the pool and the dedicated client configured without transport
    security; a first connect failing with any other message propagates that
    failure to the caller. -/
theorem prefer_ssl_downgrade (server : SslOpt → Option (List Nat)) :
    (server (sslFromInit SslInit.prefer) = some noSSLMsg →
        server SslOpt.off = none →
        getPGConnect server SslInit.prefer =
          Except.ok { poolSsl := SslOpt.off, clientSsl := SslOpt.off }) ∧
    (∀ msg, server (sslFromInit SslInit.prefer) = some msg →
        msg ≠ noSSLMsg →
        getPGConnect server SslInit.prefer = Except.error msg) := by
  constructor
  · intro h1 h2
    simp [getPGConnect, h1, h2]
  · intro msg h1 hne
    simp [getPGConnect, h1, hne]

/-- A server that rejects every transport except none at all, with the
    message that it does not support SSL connections. -/
def serverNoSSL : SslOpt → Option (List Nat) := fun s =>
  match s with
  | SslOpt.off => none
  | _ => some noSSLMsg

/-- A server whose connect always fails with a one-unit message. -/
def serverAuthFail : SslOpt → Option (List Nat) := fun _ => some [120]

/-- Claim C8, witness: the downgrade succeeds against the no-SSL server, and
    a different connect failure propagates. -/
theorem prefer_ssl_downgrade_witness :
    getPGConnect serverNoSSL SslInit.prefer =
      Except.ok { poolSsl := SslOpt.off, clientSsl := SslOpt.off } ∧
    getPGConnect serverAuthFail SslInit.prefer = Except.error [120] :=
  ⟨(prefer_ssl_downgrade serverNoSSL).1 rfl rfl,
   (prefer_ssl_downgrade serverAuthFail).2 [120] rfl (by decide)⟩
